import Mathlib

/-!
Verification of the status-transition / session-accounting state machine of
`xbox_monitor.py` (misiektoja/xbox_monitor), via a shallow embedding of the
relevant source functions into Lean.

Conventions of the embedding:
* Python `int` timestamps and counters are `Int`.
* Python string truthiness (`if s:`) is `s ≠ ""`; integer truthiness is `≠ 0`.
* The mutable locals of `xbox_monitor_user` that make up the session state are
  collected in the structure `LoopState`; one iteration of the `while True:`
  loop body is the function `loopIter`, and the start-up code before the loop
  is `bootstrapState`.
* File writes of the persisted status record (`json.dump([ts, status], ...)`)
  are returned as an explicit list of `(timestamp, status)` pairs instead of
  performing I/O; error-notification emails are returned as a count.
-/

namespace XboxMonitor

/-- `OFFLINE_INTERRUPT` from the configuration section of the source:
short-offline-interruption threshold in seconds. -/
def OFFLINE_INTERRUPT : Int := 420

/-- `XBOX_ACTIVE_CHECK_SIGNAL_VALUE` from the configuration section:
step (in seconds) used by the interval-adjusting signal handlers. -/
def XBOX_ACTIVE_CHECK_SIGNAL_VALUE : Int := 30

/-! ### Platform mapping (`xbox_get_platform_mapping`) -/

/-- Containment of one character list inside another (contiguous substring). -/
def listInfix (needle : List Char) : List Char → Bool
  | [] => needle.isEmpty
  | c :: t => needle.isPrefixOf (c :: t) || listInfix needle t

/-- Python's `needle in haystack` on strings: substring containment. -/
def pyIn (needle hay : String) : Bool :=
  listInfix needle.data hay.data

/-- Python's `str.lower()` (the device-type codes are ASCII, for which
per-character lowering coincides with Python's). -/
def pyLower (s : String) : String :=
  ⟨s.data.map Char.toLower⟩

/-- Shallow embedding of `xbox_get_platform_mapping(platform, short)`.
Each condition in the source is written
`("scarlett" or "anaconda" or "starkville" or "lockhart" or "edith") in str(platform).lower()`;
Python evaluates the parenthesised `or`-chain of non-empty strings to its
first operand, so only the first name of each group is actually tested for
containment.  The embedding reproduces exactly that behaviour. -/
def xbox_get_platform_mapping (platform : String) (short : Bool) : String :=
  if pyIn "scarlett" (pyLower platform) then
    if short then "XSX" else "Xbox One Series X/S"
  else if pyIn "scorpio" (pyLower platform) then
    if short then "XONEX" else "Xbox One X/S"
  else if pyIn "durango" (pyLower platform) then
    if short then "XONE" else "Xbox One"
  else if pyIn "xenon" (pyLower platform) then
    if short then "X360" else "Xbox 360"
  else if pyIn "windows" (pyLower platform) then "Windows"
  else if pyIn "ios" (pyLower platform) then "iPhone/iPad"
  else if pyIn "android" (pyLower platform) then
    if short then platform else "Android Phone/Tablet"
  else platform

/-! ### Interval-adjusting signal handlers -/

/-- Embedding of `increase_active_check_signal_handler`: unconditionally adds
`XBOX_ACTIVE_CHECK_SIGNAL_VALUE` to `XBOX_ACTIVE_CHECK_INTERVAL`. -/
def increase_active_check (interval : Int) : Int :=
  interval + XBOX_ACTIVE_CHECK_SIGNAL_VALUE

/-- Embedding of `decrease_active_check_signal_handler`: subtracts the step
only when the result would still be strictly positive. -/
def decrease_active_check (interval : Int) : Int :=
  if interval - XBOX_ACTIVE_CHECK_SIGNAL_VALUE > 0 then
    interval - XBOX_ACTIVE_CHECK_SIGNAL_VALUE
  else interval

/-- An operator signal adjusting the active-check interval (SIGTRAP / SIGABRT). -/
inductive IntervalSignal where
  | increase : IntervalSignal
  | decrease : IntervalSignal
deriving DecidableEq

/-- Apply one interval-adjusting signal. -/
def applySignal (interval : Int) : IntervalSignal → Int
  | .increase => increase_active_check interval
  | .decrease => decrease_active_check interval

/-- Apply a sequence of interval-adjusting signals in order. -/
def applySignals (interval : Int) (sigs : List IntervalSignal) : Int :=
  sigs.foldl applySignal interval

/-! ### `calculate_timespan`

The source converts both integer timestamps to `datetime` objects and calls
`dateutil.relativedelta.relativedelta(dt1, dt2)` to obtain a calendar-aware
field-by-field difference.  `relativedelta` belongs to an external library
(an external collaborator in the spec's sense); it is modelled as an explicit
function parameter `rd` from the two (already swap-ordered) timestamps to the
record of difference fields, which is the only way the source consumes it. -/

/-- Fields of a `dateutil` `relativedelta` object that `calculate_timespan`
reads (`weeks` is the derived `days // 7` property of the library object). -/
structure RelDelta where
  years : Int
  months : Int
  weeks : Int
  days : Int
  hours : Int
  minutes : Int
  seconds : Int
deriving DecidableEq

/-- Formatting of one interval in the result list: `f"{interval} {name}"`,
with `name.rstrip('s')` when the value is 1 (every name has a single
trailing `s`). -/
def intervalEntry (value : Int) (name : String) : String :=
  toString value ++ " " ++ (if value = 1 then name.dropRight 1 else name)

/-- Body of `calculate_timespan` after the argument swap (`ts1 >= ts2`
normalization): `ts_diff` is the non-negative difference, `d1 ≥ d2` the
swap-ordered timestamps handed to `relativedelta`. -/
def timespanCore (rd : Int → Int → RelDelta) (ts_diff d1 d2 : Int)
    (show_weeks show_hours show_minutes show_seconds : Bool)
    (granularity : Nat) : String :=
  if ts_diff > 0 then
    let dd := rd d1 d2
    let years := dd.years
    let months := dd.months
    let weeks := if show_weeks then dd.weeks else 0
    let days := if weeks > 0 then dd.days - weeks * 7 else dd.days
    let hours := if ¬ show_hours ∧ ts_diff > 86400 then 0 else dd.hours
    let minutes := if ¬ show_minutes ∧ ts_diff > 3600 then 0 else dd.minutes
    let seconds := if ¬ show_seconds ∧ ts_diff > 60 then 0 else dd.seconds
    let date_list := [years, months, weeks, days, hours, minutes, seconds]
    let names := ["years", "months", "weeks", "days", "hours", "minutes", "seconds"]
    let entries := (date_list.zip names).filterMap
      (fun p => if p.1 > 0 then some (intervalEntry p.1 p.2) else none)
    String.intercalate ", " (entries.take granularity)
  else "0 seconds"

/-- Shallow embedding of `calculate_timespan(timestamp1, timestamp2, ...)`
for integer-timestamp arguments (the branch `type(timestamp) is int` of the
source; the claims quantify over integer timestamps only).  `rd` models the
`relativedelta` library call on the swap-ordered pair. -/
def calculate_timespan (rd : Int → Int → RelDelta)
    (timestamp1 timestamp2 : Int)
    (show_weeks show_hours show_minutes show_seconds : Bool)
    (granularity : Nat) : String :=
  if timestamp1 ≥ timestamp2 then
    timespanCore rd (timestamp1 - timestamp2) timestamp1 timestamp2
      show_weeks show_hours show_minutes show_seconds granularity
  else
    timespanCore rd (timestamp2 - timestamp1) timestamp2 timestamp1
      show_weeks show_hours show_minutes show_seconds granularity

/-! ### The monitoring loop of `xbox_monitor_user`

`LoopState` collects the mutable locals of `xbox_monitor_user` that carry
session state across loop iterations.  `status`, `game_name` and
`lastonline_ts` are the most recently fetched snapshot values (they are
re-assigned before the empty-status check, so they can change even on a
failed poll); the `_old` fields and the counters are the session state
proper. -/

structure LoopState where
  status : String
  game_name : String
  lastonline_ts : Int
  status_old : String
  status_ts_old : Int
  status_online_start_ts : Int
  status_online_start_ts_old : Int
  game_name_old : String
  game_ts_old : Int
  game_total_ts : Int
  games_number : Int
  game_total_after_offline_counted : Bool
  email_sent : Bool
deriving DecidableEq

/-- Result of one presence fetch in the loop: either the `get_presence` call
raised (with the exception's text), or it returned a payload that
`xbox_process_presence_class` reduced to a status, a game name and a
last-online timestamp. -/
inductive FetchResult where
  | fetchErr : String → FetchResult
  | fetched : String → String → Int → FetchResult
deriving DecidableEq

/-- Heuristic auth-failure test from the source:
`'validation' in str(e) or 'auth' in str(e) or 'token' in str(e)`. -/
def authError (msg : String) : Bool :=
  pyIn "validation" msg || pyIn "auth" msg || pyIn "token" msg

/-- Embedding of the `except` branch of the loop body: on an auth-looking
error with error notifications enabled and no email sent yet, one email is
sent and `email_sent` is set; nothing else in the state changes.  Returns
the new state and the number of error emails sent (0 or 1). -/
def errHandle (error_notify : Bool) (msg : String) (st : LoopState) :
    LoopState × Nat :=
  if authError msg ∧ error_notify ∧ st.email_sent = false then
    ({ st with email_sent := true }, 1)
  else (st, 0)

/-- Embedding of the `# Player got online` block (`status_old == "offline"
and status and status != "offline"`).  `now` is `status_ts`. -/
def gotOnlineUpdate (now : Int) (st : LoopState) : LoopState :=
  if st.status_old = "offline" ∧ st.status ≠ "" ∧ st.status ≠ "offline" then
    let st1 := { st with game_total_after_offline_counted := false }
    if now - st1.status_ts_old > OFFLINE_INTERRUPT ∨ st1.status_online_start_ts_old = 0 then
      { st1 with status_online_start_ts := now, game_total_ts := 0, games_number := 0 }
    else if now - st1.status_ts_old ≤ OFFLINE_INTERRUPT ∧ st1.status_online_start_ts_old > 0 then
      { st1 with status_online_start_ts := st1.status_online_start_ts_old }
    else st1
  else st

/-- Embedding of the `# Player got offline` block (`status_old and
status_old != "offline" and status == "offline"`).  `now` is
`status_ts = game_ts`. -/
def gotOfflineUpdate (now : Int) (st : LoopState) : LoopState :=
  if st.status_old ≠ "" ∧ st.status_old ≠ "offline" ∧ st.status = "offline" then
    let st1 :=
      if st.games_number > 0 ∧ st.game_name_old ≠ "" ∧ st.game_name = "" then
        { st with game_total_ts := st.game_total_ts + (now - st.game_ts_old),
                  game_total_after_offline_counted := true }
      else st
    { st1 with status_online_start_ts_old := st1.status_online_start_ts,
               status_online_start_ts := 0 }
  else st

/-- Embedding of the `# Player status changed` block: when the fetched
status differs from `status_old`, the record `[status_ts, status]` is
written, the got-online / got-offline sub-blocks run, and `status_ts_old`
is set to `status_ts`.  Returns the new state and the record writes. -/
def statusBlock (now : Int) (st : LoopState) : LoopState × List (Int × String) :=
  if st.status ≠ st.status_old then
    ({ gotOfflineUpdate now (gotOnlineUpdate now st) with status_ts_old := now },
      [(now, st.status)])
  else (st, [])

/-- Embedding of the `# Player started/stopped/changed the game` block:
runs when the fetched game name differs from `game_name_old`, independently
of the status block, and ends by setting `game_ts_old` to `game_ts`. -/
def gameBlock (now : Int) (st : LoopState) : LoopState :=
  if st.game_name ≠ st.game_name_old then
    let st1 :=
      if st.game_name_old ≠ "" ∧ st.game_name ≠ "" then
        { st with game_total_ts := st.game_total_ts + (now - st.game_ts_old),
                  games_number := st.games_number + 1 }
      else if st.game_name_old = "" ∧ st.game_name ≠ "" then
        { st with games_number := st.games_number + 1 }
      else if st.game_name_old ≠ "" ∧ st.game_name = "" then
        if st.game_total_after_offline_counted = false then
          { st with game_total_ts := st.game_total_ts + (now - st.game_ts_old) }
        else st
      else st
    { st1 with game_ts_old := now }
  else st

/-- Output of one iteration of the main loop: the new state, the persisted
status-record writes, and the number of error-notification emails sent. -/
structure IterOut where
  state : LoopState
  writes : List (Int × String)
  errEmails : Nat
deriving DecidableEq

/-- Embedding of one iteration of the `while True:` loop body of
`xbox_monitor_user`.  On a successful fetch the snapshot locals are
re-assigned, an empty status raises `ValueError('Xbox user status is
empty')` into the `except` branch (with the snapshot locals already
overwritten), and otherwise `email_sent` is cleared, the status block and
the game block run, and `status_old` / `game_name_old` are updated. -/
def loopIter (error_notify : Bool) (now : Int) (st : LoopState)
    (fr : FetchResult) : IterOut :=
  match fr with
  | .fetchErr msg =>
      ⟨(errHandle error_notify msg st).1, [], (errHandle error_notify msg st).2⟩
  | .fetched s g lo =>
      let st1 := { st with status := s, game_name := g, lastonline_ts := lo }
      if s = "" then
        ⟨(errHandle error_notify "Xbox user status is empty" st1).1, [],
          (errHandle error_notify "Xbox user status is empty" st1).2⟩
      else
        let st2 := { st1 with email_sent := false }
        let st3 := (statusBlock now st2).1
        let st4 := gameBlock now st3
        ⟨{ st4 with status_old := s, game_name_old := g },
          (statusBlock now st2).2, 0⟩

/-- Run a sequence of polls through the loop, returning the final state and
the total number of error-notification emails sent. -/
def runPolls (error_notify : Bool) : List (Int × FetchResult) → LoopState →
    LoopState × Nat
  | [], st => (st, 0)
  | (now, fr) :: ps, st =>
      let o := loopIter error_notify now st fr
      let r := runPolls error_notify ps o.state
      (r.1, o.errEmails + r.2)

/-- Embedding of the start-up (bootstrap) code of `xbox_monitor_user`
between the first successful presence fetch and the main loop (source lines
669–776): seeding of `status_ts_old` and the online-session timestamps,
reconciliation against the persisted `[timestamp, status]` record
(`persisted`), the initial record writes, and the initial game seeding.
`now0` is the wall-clock time of the first poll; `lastonline_ts0` is the
last-online timestamp extracted from the first payload.  Returns the state
the main loop starts from together with the record writes performed. -/
def bootstrapState (now0 : Int) (status0 game_name0 : String)
    (lastonline_ts0 : Int) (persisted : Option (Int × String)) :
    LoopState × List (Int × String) :=
  let sOn : Int × Int :=
    if status0 ≠ "" ∧ status0 ≠ "offline" then (now0, now0) else (0, 0)
  let last_status_ts : Int := match persisted with | some p => p.1 | none => 0
  let last_status : String := match persisted with | some p => p.2 | none => ""
  let seeded : Int × Int × Int :=
    if last_status_ts > 0 then
      let ts1 :=
        if lastonline_ts0 ≠ 0 ∧ status0 = "offline" then
          (if lastonline_ts0 ≥ last_status_ts then lastonline_ts0 else last_status_ts)
        else now0
      let ts2 :=
        if lastonline_ts0 = 0 ∧ status0 = "offline" then last_status_ts else ts1
      if status0 ≠ "" ∧ status0 ≠ "offline" ∧ status0 = last_status then
        (last_status_ts, last_status_ts, last_status_ts)
      else (ts2, sOn.1, sOn.2)
    else (now0, sOn.1, sOn.2)
  let writes1 : List (Int × String) :=
    if last_status_ts > 0 ∧ status0 ≠ last_status then
      [(seeded.1, status0)] else []
  let game0 : Int × Int :=
    if status0 ≠ "offline" ∧ game_name0 ≠ "" then (now0, 1) else (0, 0)
  let final : Int × List (Int × String) :=
    if last_status_ts = 0 then
      let ts3 :=
        if lastonline_ts0 ≠ 0 ∧ status0 = "offline" then lastonline_ts0
        else seeded.1
      (ts3, [(ts3, status0)])
    else (seeded.1, [])
  ({ status := status0
     game_name := game_name0
     lastonline_ts := lastonline_ts0
     status_old := status0
     status_ts_old := final.1
     status_online_start_ts := seeded.2.1
     status_online_start_ts_old := seeded.2.2
     game_name_old := game_name0
     game_ts_old := game0.1
     game_total_ts := 0
     games_number := game0.2
     game_total_after_offline_counted := false
     email_sent := false },
   writes1 ++ final.2)

/-! ### Field-preservation lemmas for the loop blocks -/

@[simp]
theorem gotOnlineUpdate_status (now : Int) (st : LoopState) :
    (gotOnlineUpdate now st).status = st.status := by
  simp only [gotOnlineUpdate]; split_ifs <;> rfl

@[simp]
theorem gotOnlineUpdate_status_old (now : Int) (st : LoopState) :
    (gotOnlineUpdate now st).status_old = st.status_old := by
  simp only [gotOnlineUpdate]; split_ifs <;> rfl

@[simp]
theorem gotOnlineUpdate_game_name (now : Int) (st : LoopState) :
    (gotOnlineUpdate now st).game_name = st.game_name := by
  simp only [gotOnlineUpdate]; split_ifs <;> rfl

@[simp]
theorem gotOnlineUpdate_game_name_old (now : Int) (st : LoopState) :
    (gotOnlineUpdate now st).game_name_old = st.game_name_old := by
  simp only [gotOnlineUpdate]; split_ifs <;> rfl

@[simp]
theorem gotOnlineUpdate_status_ts_old (now : Int) (st : LoopState) :
    (gotOnlineUpdate now st).status_ts_old = st.status_ts_old := by
  simp only [gotOnlineUpdate]; split_ifs <;> rfl

@[simp]
theorem gotOnlineUpdate_game_ts_old (now : Int) (st : LoopState) :
    (gotOnlineUpdate now st).game_ts_old = st.game_ts_old := by
  simp only [gotOnlineUpdate]; split_ifs <;> rfl

@[simp]
theorem gotOnlineUpdate_start_ts_old (now : Int) (st : LoopState) :
    (gotOnlineUpdate now st).status_online_start_ts_old
      = st.status_online_start_ts_old := by
  simp only [gotOnlineUpdate]; split_ifs <;> rfl

@[simp]
theorem gotOnlineUpdate_email_sent (now : Int) (st : LoopState) :
    (gotOnlineUpdate now st).email_sent = st.email_sent := by
  simp only [gotOnlineUpdate]; split_ifs <;> rfl

@[simp]
theorem gotOfflineUpdate_status (now : Int) (st : LoopState) :
    (gotOfflineUpdate now st).status = st.status := by
  simp only [gotOfflineUpdate]; split_ifs <;> rfl

@[simp]
theorem gotOfflineUpdate_status_old (now : Int) (st : LoopState) :
    (gotOfflineUpdate now st).status_old = st.status_old := by
  simp only [gotOfflineUpdate]; split_ifs <;> rfl

@[simp]
theorem gotOfflineUpdate_game_name (now : Int) (st : LoopState) :
    (gotOfflineUpdate now st).game_name = st.game_name := by
  simp only [gotOfflineUpdate]; split_ifs <;> rfl

@[simp]
theorem gotOfflineUpdate_game_name_old (now : Int) (st : LoopState) :
    (gotOfflineUpdate now st).game_name_old = st.game_name_old := by
  simp only [gotOfflineUpdate]; split_ifs <;> rfl

@[simp]
theorem gotOfflineUpdate_status_ts_old (now : Int) (st : LoopState) :
    (gotOfflineUpdate now st).status_ts_old = st.status_ts_old := by
  simp only [gotOfflineUpdate]; split_ifs <;> rfl

@[simp]
theorem gotOfflineUpdate_game_ts_old (now : Int) (st : LoopState) :
    (gotOfflineUpdate now st).game_ts_old = st.game_ts_old := by
  simp only [gotOfflineUpdate]; split_ifs <;> rfl

@[simp]
theorem gotOfflineUpdate_games_number (now : Int) (st : LoopState) :
    (gotOfflineUpdate now st).games_number = st.games_number := by
  simp only [gotOfflineUpdate]; split_ifs <;> rfl

@[simp]
theorem gotOfflineUpdate_email_sent (now : Int) (st : LoopState) :
    (gotOfflineUpdate now st).email_sent = st.email_sent := by
  simp only [gotOfflineUpdate]; split_ifs <;> rfl

@[simp]
theorem gameBlock_status (now : Int) (st : LoopState) :
    (gameBlock now st).status = st.status := by
  simp only [gameBlock]; split_ifs <;> rfl

@[simp]
theorem gameBlock_status_old (now : Int) (st : LoopState) :
    (gameBlock now st).status_old = st.status_old := by
  simp only [gameBlock]; split_ifs <;> rfl

@[simp]
theorem gameBlock_game_name (now : Int) (st : LoopState) :
    (gameBlock now st).game_name = st.game_name := by
  simp only [gameBlock]; split_ifs <;> rfl

@[simp]
theorem gameBlock_game_name_old (now : Int) (st : LoopState) :
    (gameBlock now st).game_name_old = st.game_name_old := by
  simp only [gameBlock]; split_ifs <;> rfl

@[simp]
theorem gameBlock_status_ts_old (now : Int) (st : LoopState) :
    (gameBlock now st).status_ts_old = st.status_ts_old := by
  simp only [gameBlock]; split_ifs <;> rfl

@[simp]
theorem gameBlock_start_ts (now : Int) (st : LoopState) :
    (gameBlock now st).status_online_start_ts = st.status_online_start_ts := by
  simp only [gameBlock]; split_ifs <;> rfl

@[simp]
theorem gameBlock_start_ts_old (now : Int) (st : LoopState) :
    (gameBlock now st).status_online_start_ts_old
      = st.status_online_start_ts_old := by
  simp only [gameBlock]; split_ifs <;> rfl

@[simp]
theorem gameBlock_email_sent (now : Int) (st : LoopState) :
    (gameBlock now st).email_sent = st.email_sent := by
  simp only [gameBlock]; split_ifs <;> rfl

@[simp]
theorem statusBlock_status (now : Int) (st : LoopState) :
    (statusBlock now st).1.status = st.status := by
  simp only [statusBlock]; split_ifs <;> simp

@[simp]
theorem statusBlock_status_old (now : Int) (st : LoopState) :
    (statusBlock now st).1.status_old = st.status_old := by
  simp only [statusBlock]; split_ifs <;> simp

@[simp]
theorem statusBlock_game_name (now : Int) (st : LoopState) :
    (statusBlock now st).1.game_name = st.game_name := by
  simp only [statusBlock]; split_ifs <;> simp

@[simp]
theorem statusBlock_game_name_old (now : Int) (st : LoopState) :
    (statusBlock now st).1.game_name_old = st.game_name_old := by
  simp only [statusBlock]; split_ifs <;> simp

@[simp]
theorem statusBlock_game_ts_old (now : Int) (st : LoopState) :
    (statusBlock now st).1.game_ts_old = st.game_ts_old := by
  simp only [statusBlock]; split_ifs <;> simp

@[simp]
theorem statusBlock_email_sent (now : Int) (st : LoopState) :
    (statusBlock now st).1.email_sent = st.email_sent := by
  simp only [statusBlock]; split_ifs <;> simp

/-! ### Claim theorems: platform mapping, signal handlers, timespan -/

/-- C6: the claim states that every raw device-type code containing one of
the known console-generation names is mapped to its short label — in
particular "anaconda" should map to "XSX" and "edmonton" to "XONEX".  In the
source each group test is `("scarlett" or "anaconda" or ...) in code`, and
Python evaluates the `or`-chain to its first operand, so only "scarlett"
(resp. "scorpio") is ever tested: codes containing "anaconda",
"starkville", "lockhart", "edith" or "edmonton" (but not the group's first
name) pass through unchanged, contradicting the claim. -/
theorem platform_mapping_or_chain_drops_aliases :
    xbox_get_platform_mapping "anaconda" true = "anaconda" ∧
    xbox_get_platform_mapping "anaconda" false = "anaconda" ∧
    xbox_get_platform_mapping "edmonton" true = "edmonton" ∧
    xbox_get_platform_mapping "scarlett" true = "XSX" ∧
    xbox_get_platform_mapping "scorpio" true = "XONEX" := by
  refine ⟨rfl, rfl, rfl, rfl, rfl⟩

/-- C9: starting from a strictly positive active-check interval, any
sequence of increase/decrease signals leaves the interval strictly
positive: the increase handler adds a positive step, and the decrease
handler applies the step only when the result stays positive. -/
theorem active_check_interval_stays_positive (start : Int)
    (sigs : List IntervalSignal) (h : 0 < start) :
    0 < applySignals start sigs := by
  induction sigs generalizing start with
  | nil => simpa [applySignals] using h
  | cons s rest ih =>
      have hstep : 0 < applySignal start s := by
        cases s with
        | increase =>
            simp only [applySignal, increase_active_check,
              XBOX_ACTIVE_CHECK_SIGNAL_VALUE]
            omega
        | decrease =>
            simp only [applySignal, decrease_active_check,
              XBOX_ACTIVE_CHECK_SIGNAL_VALUE]
            split_ifs <;> omega
      simpa [applySignals, List.foldl_cons] using ih (applySignal start s) hstep

/-- Witness for C9 at a concrete interval and signal sequence. -/
theorem active_check_interval_stays_positive_witness :
    0 < (90 : Int) ∧
      0 < applySignals 90
        [IntervalSignal.decrease, IntervalSignal.decrease,
         IntervalSignal.decrease, IntervalSignal.increase] :=
  ⟨by decide,
   active_check_interval_stays_positive 90
     [IntervalSignal.decrease, IntervalSignal.decrease,
      IntervalSignal.decrease, IntervalSignal.increase] (by decide)⟩

/-- C10: `calculate_timespan` is symmetric in its two timestamps — the
source swaps the arguments whenever `ts1 < ts2`, so both computations feed
identical normalized inputs to the rest of the function. -/
theorem calculate_timespan_symm (rd : Int → Int → RelDelta) (t1 t2 : Int)
    (sw sh sm ss : Bool) (g : Nat) :
    calculate_timespan rd t1 t2 sw sh sm ss g
      = calculate_timespan rd t2 t1 sw sh sm ss g := by
  rcases lt_trichotomy t1 t2 with h | h | h
  · unfold calculate_timespan
    rw [if_neg (by omega), if_pos (by omega)]
  · subst h; rfl
  · unfold calculate_timespan
    rw [if_pos (by omega), if_neg (by omega)]

/-! ### Failed polls (C4) and bootstrap reconciliation (C5) -/

/-- Decides whether a poll is one of the failure cases of the loop body: the
presence fetch raised, or the fetched payload produced an empty status
(which raises `ValueError` into the same `except` branch). -/
def pollFailed : FetchResult → Bool
  | .fetchErr _ => true
  | .fetched s _ _ => s = ""

/-- C4: a poll whose fetch fails or whose payload yields an empty status
leaves every session-state field (previous status, session start, previous
session start, status-change timestamp, previous activity, activity start
timestamp, activity total, activity count, already-counted flag) unchanged
and writes no persisted status record. -/
theorem failed_poll_preserves_session_state (en : Bool) (now : Int)
    (st : LoopState) (fr : FetchResult) (h : pollFailed fr = true) :
    (loopIter en now st fr).state.status_old = st.status_old ∧
    (loopIter en now st fr).state.status_online_start_ts
      = st.status_online_start_ts ∧
    (loopIter en now st fr).state.status_online_start_ts_old
      = st.status_online_start_ts_old ∧
    (loopIter en now st fr).state.status_ts_old = st.status_ts_old ∧
    (loopIter en now st fr).state.game_name_old = st.game_name_old ∧
    (loopIter en now st fr).state.game_ts_old = st.game_ts_old ∧
    (loopIter en now st fr).state.game_total_ts = st.game_total_ts ∧
    (loopIter en now st fr).state.games_number = st.games_number ∧
    (loopIter en now st fr).state.game_total_after_offline_counted
      = st.game_total_after_offline_counted ∧
    (loopIter en now st fr).writes = [] := by
  cases fr with
  | fetchErr msg =>
      simp only [loopIter, errHandle]
      split_ifs <;> simp
  | fetched s g lo =>
      simp only [pollFailed, decide_eq_true_eq] at h
      subst h
      simp only [loopIter, errHandle]
      split_ifs <;> simp_all

/-- Witness for C4: a concrete failed poll on a concrete state. -/
theorem failed_poll_preserves_session_state_witness :
    pollFailed (FetchResult.fetchErr "connection reset") = true ∧
    (loopIter true 1000
        ⟨"online", "GameA", 0, "online", 900, 900, 900, "GameA", 900, 50, 1,
          false, false⟩
        (FetchResult.fetchErr "connection reset")).state.status_old
      = "online" := by
  refine ⟨by decide, ?_⟩
  have h := failed_poll_preserves_session_state true 1000
    ⟨"online", "GameA", 0, "online", 900, 900, 900, "GameA", 900, 50, 1,
      false, false⟩
    (FetchResult.fetchErr "connection reset") (by decide)
  exact h.1

/-- C5: on the first poll with current status "offline", when both a
payload last-online timestamp and a positive persisted timestamp exist the
adopted `status_ts_old` is the maximum of the two, and when only the
persisted timestamp exists (no last-online value) it is adopted. -/
theorem bootstrap_offline_adopts_most_recent (now0 lo pts : Int)
    (g ps : String) (hpts : 0 < pts) :
    (bootstrapState now0 "offline" g lo (some (pts, ps))).1.status_ts_old
      = if lo ≠ 0 then max lo pts else pts := by
  simp only [bootstrapState]
  split_ifs <;> first | omega | simp_all

/-- Witness for C5 at concrete inputs (payload timestamp more recent). -/
theorem bootstrap_offline_adopts_most_recent_witness :
    0 < (800 : Int) ∧
    (bootstrapState 1000 "offline" "" 900 (some (800, "online"))).1.status_ts_old
      = if (900 : Int) ≠ 0 then max 900 800 else 800 :=
  ⟨by decide, bootstrap_offline_adopts_most_recent 1000 900 800 "" "online" (by decide)⟩

/-! ### Offline-to-online transitions (C2) and the double-count guard (C3) -/

/-- C2: on an offline→non-offline transition of the status block, a gap of
at most `OFFLINE_INTERRUPT` seconds together with a positive previous
session start resumes that session (the session start is restored and the
activity total and count are untouched); otherwise the session starts
fresh at `now` with both counters reset.  The hypothesis
`0 ≤ status_online_start_ts_old` holds at every reachable loop state (see
the C1 invariant). -/
theorem offline_to_online_resume_or_fresh (now : Int) (st : LoopState)
    (hold : st.status_old = "offline") (h1 : st.status ≠ "")
    (h2 : st.status ≠ "offline")
    (hprev : 0 ≤ st.status_online_start_ts_old) :
    (now - st.status_ts_old ≤ OFFLINE_INTERRUPT ∧
        0 < st.status_online_start_ts_old →
      (statusBlock now st).1.status_online_start_ts
          = st.status_online_start_ts_old ∧
      (statusBlock now st).1.game_total_ts = st.game_total_ts ∧
      (statusBlock now st).1.games_number = st.games_number) ∧
    (¬ (now - st.status_ts_old ≤ OFFLINE_INTERRUPT ∧
        0 < st.status_online_start_ts_old) →
      (statusBlock now st).1.status_online_start_ts = now ∧
      (statusBlock now st).1.game_total_ts = 0 ∧
      (statusBlock now st).1.games_number = 0) := by
  have hne : st.status ≠ st.status_old := by rw [hold]; exact h2
  simp only [statusBlock, gotOnlineUpdate, gotOfflineUpdate]
  split_ifs <;> simp_all <;> omega

/-- Witness for C2: a concrete resume after a 100-second gap
(threshold 420) with a previous session start of 500. -/
theorem offline_to_online_resume_or_fresh_witness :
    0 ≤ (500 : Int) ∧
    ((1100 - (1000 : Int) ≤ OFFLINE_INTERRUPT ∧ 0 < (500 : Int) →
      (statusBlock 1100
          ⟨"online", "", 0, "offline", 1000, 0, 500, "", 0, 50, 2, false,
            false⟩).1.status_online_start_ts = 500 ∧
      (statusBlock 1100
          ⟨"online", "", 0, "offline", 1000, 0, 500, "", 0, 50, 2, false,
            false⟩).1.game_total_ts = 50 ∧
      (statusBlock 1100
          ⟨"online", "", 0, "offline", 1000, 0, 500, "", 0, 50, 2, false,
            false⟩).1.games_number = 2) ∧
     (¬ (1100 - (1000 : Int) ≤ OFFLINE_INTERRUPT ∧ 0 < (500 : Int)) →
      (statusBlock 1100
          ⟨"online", "", 0, "offline", 1000, 0, 500, "", 0, 50, 2, false,
            false⟩).1.status_online_start_ts = 1100 ∧
      (statusBlock 1100
          ⟨"online", "", 0, "offline", 1000, 0, 500, "", 0, 50, 2, false,
            false⟩).1.game_total_ts = 0 ∧
      (statusBlock 1100
          ⟨"online", "", 0, "offline", 1000, 0, 500, "", 0, 50, 2, false,
            false⟩).1.games_number = 0)) :=
  ⟨by decide,
   offline_to_online_resume_or_fresh 1100
     ⟨"online", "", 0, "offline", 1000, 0, 500, "", 0, 50, 2, false, false⟩
     rfl (by decide) (by decide) (by decide)⟩

theorem statusBlock_offline_stop_pos (now : Int) (st : LoopState)
    (h1 : st.status_old ≠ "") (h2 : st.status_old ≠ "offline")
    (hs : st.status = "offline") (hgn : st.game_name = "")
    (hg : st.game_name_old ≠ "") (hn : 0 < st.games_number) :
    (statusBlock now st).1.game_total_ts
        = st.game_total_ts + (now - st.game_ts_old) ∧
    (statusBlock now st).1.game_total_after_offline_counted = true := by
  simp only [statusBlock, gotOnlineUpdate, gotOfflineUpdate]
  split_ifs <;> simp_all

theorem statusBlock_offline_stop_nonpos (now : Int) (st : LoopState)
    (h1 : st.status_old ≠ "") (h2 : st.status_old ≠ "offline")
    (hs : st.status = "offline") (_hgn : st.game_name = "")
    (_hg : st.game_name_old ≠ "") (hn : ¬ 0 < st.games_number) :
    (statusBlock now st).1.game_total_ts = st.game_total_ts ∧
    (statusBlock now st).1.game_total_after_offline_counted
        = st.game_total_after_offline_counted := by
  simp only [statusBlock, gotOnlineUpdate, gotOfflineUpdate]
  split_ifs <;> simp_all

theorem gameBlock_stop_total (now : Int) (st : LoopState)
    (hg : st.game_name_old ≠ "") (hgn : st.game_name = "") :
    (gameBlock now st).game_total_ts
      = if st.game_total_after_offline_counted = false
        then st.game_total_ts + (now - st.game_ts_old)
        else st.game_total_ts := by
  simp only [gameBlock]
  split_ifs <;> simp_all

/-- The state right after the snapshot locals are re-assigned and
`email_sent` is cleared in a successful fetch (the state the status and
game blocks operate on). -/
def snapState (st : LoopState) (s g : String) (lo : Int) : LoopState :=
  { st with
    status := s
    game_name := g
    lastonline_ts := lo
    email_sent := false }

/-- C3: in a poll where a non-offline→offline transition and an
activity stop (previous activity present, none now) coincide, the elapsed
activity time is added to the session activity total exactly once: when the
offline-transition branch has counted it (it does so whenever
`games_number > 0`, setting the already-counted flag), the activity-stop
branch skips its addition; otherwise the activity-stop branch performs the
single addition.  The hypothesis that the flag starts cleared holds at
every poll entered with a non-offline `status_old`, since the
offline→online branch clears it. -/
theorem offline_and_game_stop_single_count (en : Bool) (now lo : Int)
    (st : LoopState)
    (h1 : st.status_old ≠ "") (h2 : st.status_old ≠ "offline")
    (hg : st.game_name_old ≠ "")
    (hf : st.game_total_after_offline_counted = false) :
    (loopIter en now st (FetchResult.fetched "offline" "" lo)).state.game_total_ts
      = st.game_total_ts + (now - st.game_ts_old) := by
  have hgoal : (loopIter en now st
        (FetchResult.fetched "offline" "" lo)).state.game_total_ts
      = (gameBlock now
          (statusBlock now (snapState st "offline" "" lo)).1).game_total_ts := rfl
  rw [hgoal,
    gameBlock_stop_total now (statusBlock now (snapState st "offline" "" lo)).1
      (by simpa [snapState] using hg) (by simp [snapState])]
  by_cases hn : 0 < st.games_number
  · obtain ⟨htot, hflag⟩ := statusBlock_offline_stop_pos now
      (snapState st "offline" "" lo) h1 h2 rfl rfl hg hn
    rw [htot, hflag, statusBlock_game_ts_old]
    simp [snapState]
  · obtain ⟨htot, hflag⟩ := statusBlock_offline_stop_nonpos now
      (snapState st "offline" "" lo) h1 h2 rfl rfl hg hn
    rw [htot, hflag, statusBlock_game_ts_old]
    simp [snapState, hf]

/-- Witness for C3: concrete state going offline while playing, with
`games_number > 0` (the offline branch counts, the stop branch skips). -/
theorem offline_and_game_stop_single_count_witness :
    ("online" : String) ≠ "offline" ∧
    (loopIter true 1200
        ⟨"online", "GameA", 0, "online", 900, 900, 900, "GameA", 1000, 50, 1,
          false, false⟩
        (FetchResult.fetched "offline" "" 0)).state.game_total_ts
      = 50 + (1200 - 1000) :=
  ⟨by decide,
   offline_and_game_stop_single_count true 1200 0
     ⟨"online", "GameA", 0, "online", 900, 900, 900, "GameA", 1000, 50, 1,
       false, false⟩
     (by decide) (by decide) (by decide) rfl⟩

/-! ### The session-start invariant (C1) -/

/-- Invariant relating the online-session start timestamp to the current
status (`status_old` holds the status of the most recently processed poll).
The two non-negativity conjuncts and the non-emptiness conjunct are the
auxiliary facts needed for the induction. -/
def SessionInv (st : LoopState) : Prop :=
  st.status_old ≠ "" ∧
  (st.status_online_start_ts ≠ 0 ↔ st.status_old ≠ "offline") ∧
  0 ≤ st.status_online_start_ts ∧
  0 ≤ st.status_online_start_ts_old

theorem statusBlock_start_inv (now : Int) (st : LoopState)
    (hiff : st.status_online_start_ts ≠ 0 ↔ st.status_old ≠ "offline")
    (hpos : 0 ≤ st.status_online_start_ts)
    (hposo : 0 ≤ st.status_online_start_ts_old)
    (hso : st.status_old ≠ "") (hs : st.status ≠ "") (hn : 0 < now) :
    ((statusBlock now st).1.status_online_start_ts ≠ 0 ↔
        st.status ≠ "offline") ∧
    0 ≤ (statusBlock now st).1.status_online_start_ts ∧
    0 ≤ (statusBlock now st).1.status_online_start_ts_old := by
  simp only [statusBlock, gotOnlineUpdate, gotOfflineUpdate]
  split_ifs <;> simp_all
  all_goals first | omega | tauto

theorem sessionInv_bootstrap (now0 : Int) (status0 game_name0 : String)
    (lo : Int) (persisted : Option (Int × String))
    (h0 : status0 ≠ "") (hn : 0 < now0) :
    SessionInv (bootstrapState now0 status0 game_name0 lo persisted).1 := by
  simp only [SessionInv, bootstrapState]
  cases persisted with
  | none =>
      split_ifs <;> simp_all
      all_goals omega
  | some p =>
      split_ifs <;> simp_all
      all_goals
        first
        | omega
        | (rename_i hcond
           refine ⟨⟨fun _ => ?_, fun _ => by omega⟩, by omega⟩
           rw [← hcond.2.2]
           exact hcond.2.1)

theorem sessionInv_step (en : Bool) (now : Int) (st : LoopState)
    (fr : FetchResult) (h : SessionInv st) (hn : 0 < now) :
    SessionInv (loopIter en now st fr).state := by
  obtain ⟨ho, hiff, hpos, hposo⟩ := h
  cases fr with
  | fetchErr msg =>
      simp only [loopIter, errHandle]
      split_ifs <;> exact ⟨ho, hiff, hpos, hposo⟩
  | fetched s g lo =>
      by_cases hs : s = ""
      · subst hs
        simp only [loopIter, if_pos, errHandle]
        split_ifs <;> exact ⟨ho, hiff, hpos, hposo⟩
      · have key := statusBlock_start_inv now (snapState st s g lo)
          hiff hpos hposo ho hs hn
        have eIter : loopIter en now st (FetchResult.fetched s g lo)
            = ⟨{ gameBlock now (statusBlock now (snapState st s g lo)).1 with
                  status_old := s
                  game_name_old := g },
                (statusBlock now (snapState st s g lo)).2, 0⟩ := by
          simp only [loopIter, if_neg hs]
          rfl
        rw [eIter]
        refine ⟨hs, ?_, ?_, ?_⟩
        · simpa [snapState] using key.1
        · simpa [snapState] using key.2.1
        · simpa [snapState] using key.2.2

theorem sessionInv_run (en : Bool) (ps : List (Int × FetchResult))
    (st : LoopState) (h : SessionInv st) (hp : ∀ p ∈ ps, 0 < p.1) :
    SessionInv (runPolls en ps st).1 := by
  induction ps generalizing st with
  | nil => simpa [runPolls] using h
  | cons p rest ih =>
      obtain ⟨now, fr⟩ := p
      simp only [runPolls]
      exact ih (loopIter en now st fr).state
        (sessionInv_step en now st fr ⟨h.1, h.2.1, h.2.2.1, h.2.2.2⟩
          (hp (now, fr) (by simp)))
        (fun q hq => hp q (by simp [hq]))

/-- C1: for every bootstrap input (first poll at a positive wall-clock time
with a non-empty status, arbitrary persisted record) and every subsequent
sequence of polls at positive times, the session-start timestamp of the
resulting state is nonzero exactly when the current status (the status of
the most recently processed poll, held in `status_old`) is not "offline".
Every branch of the loop — the bootstrap seeding, the offline→online
resume/fresh logic and the online→offline reset — preserves the
equivalence. -/
theorem online_session_start_iff_not_offline (en : Bool) (now0 : Int)
    (status0 game_name0 : String) (lo : Int)
    (persisted : Option (Int × String)) (ps : List (Int × FetchResult))
    (h0 : status0 ≠ "") (hn : 0 < now0) (hp : ∀ p ∈ ps, 0 < p.1) :
    ((runPolls en ps
        (bootstrapState now0 status0 game_name0 lo persisted).1).1.status_online_start_ts
      ≠ 0 ↔
     (runPolls en ps
        (bootstrapState now0 status0 game_name0 lo persisted).1).1.status_old
      ≠ "offline") :=
  (sessionInv_run en ps _
    (sessionInv_bootstrap now0 status0 game_name0 lo persisted h0 hn) hp).2.1

/-- Witness for C1: concrete bootstrap (fresh start, online) followed by an
offline and a resumed-online poll. -/
theorem online_session_start_iff_not_offline_witness :
    ("online" : String) ≠ "" ∧ (0 : Int) < 1000 ∧
    (∀ p ∈ [((1500 : Int), FetchResult.fetched "offline" "" 0),
            ((1600 : Int), FetchResult.fetched "online" "GameA" 0)], 0 < p.1) ∧
    ((runPolls true
        [((1500 : Int), FetchResult.fetched "offline" "" 0),
         ((1600 : Int), FetchResult.fetched "online" "GameA" 0)]
        (bootstrapState 1000 "online" "" 0 none).1).1.status_online_start_ts
      ≠ 0 ↔
     (runPolls true
        [((1500 : Int), FetchResult.fetched "offline" "" 0),
         ((1600 : Int), FetchResult.fetched "online" "GameA" 0)]
        (bootstrapState 1000 "online" "" 0 none).1).1.status_old
      ≠ "offline") :=
  ⟨by decide, by decide, by decide,
   online_session_start_iff_not_offline true 1000 "online" "" 0 none
     [((1500 : Int), FetchResult.fetched "offline" "" 0),
      ((1600 : Int), FetchResult.fetched "online" "GameA" 0)]
     (by decide) (by decide) (by decide)⟩

/-! ### Error-notification suppression during failure streaks (C7) -/

theorem runPolls_errs_after_sent (en : Bool) (ps : List (Int × FetchResult))
    (st : LoopState) (h : ∀ p ∈ ps, ∃ m, p.2 = FetchResult.fetchErr m)
    (hsent : st.email_sent = true) :
    (runPolls en ps st).2 = 0 := by
  induction ps generalizing st with
  | nil => rfl
  | cons p rest ih =>
      obtain ⟨now, fr⟩ := p
      obtain ⟨m, hm⟩ := h (now, fr) (by simp)
      simp only at hm
      subst hm
      simp only [runPolls, loopIter, errHandle]
      rw [if_neg (by simp [hsent])]
      simpa using ih st (fun q hq => h q (by simp [hq])) hsent

theorem runPolls_errs_le_one (en : Bool) (ps : List (Int × FetchResult))
    (st : LoopState) (h : ∀ p ∈ ps, ∃ m, p.2 = FetchResult.fetchErr m) :
    (runPolls en ps st).2 ≤ 1 := by
  induction ps generalizing st with
  | nil => simp [runPolls]
  | cons p rest ih =>
      obtain ⟨now, fr⟩ := p
      obtain ⟨m, hm⟩ := h (now, fr) (by simp)
      simp only at hm
      subst hm
      simp only [runPolls, loopIter, errHandle]
      split_ifs with hc
      · have h0 := runPolls_errs_after_sent en rest
          { st with email_sent := true }
          (fun q hq => h q (by simp [hq])) rfl
        simpa using Nat.le_of_eq h0
      · simpa using ih st (fun q hq => h q (by simp [hq]))

/-- C7: during a streak of consecutive failed polls whose error text looks
auth-related, at most one error-notification email is sent (the
`email_sent` flag suppresses repeats), and any successful poll (non-empty
status) clears the flag, re-arming the notification. -/
theorem auth_error_streak_at_most_one_email (st : LoopState)
    (ps : List (Int × FetchResult))
    (h : ∀ p ∈ ps, ∃ m, p.2 = FetchResult.fetchErr m ∧ authError m = true) :
    (runPolls true ps st).2 ≤ 1 ∧
    (∀ (st2 : LoopState) (now lo : Int) (s g : String), s ≠ "" →
      (loopIter true now st2 (FetchResult.fetched s g lo)).state.email_sent
        = false) := by
  constructor
  · exact runPolls_errs_le_one true ps st
      (fun p hp => (h p hp).imp (fun m hm => hm.1))
  · intro st2 now lo s g hs
    have e1 : (loopIter true now st2 (FetchResult.fetched s g lo)).state.email_sent
        = (gameBlock now
            (statusBlock now (snapState st2 s g lo)).1).email_sent := by
      simp only [loopIter, if_neg hs]
      rfl
    rw [e1, gameBlock_email_sent, statusBlock_email_sent]
    rfl

/-- Witness for C7: a concrete two-failure auth streak starting from an
armed state sends at most one email, and a successful poll re-arms. -/
theorem auth_error_streak_at_most_one_email_witness :
    (∀ p ∈ [((10 : Int), FetchResult.fetchErr "invalid auth token"),
            ((20 : Int), FetchResult.fetchErr "invalid auth token")],
      ∃ m, p.2 = FetchResult.fetchErr m ∧ authError m = true) ∧
    (runPolls true
        [((10 : Int), FetchResult.fetchErr "invalid auth token"),
         ((20 : Int), FetchResult.fetchErr "invalid auth token")]
        ⟨"online", "", 0, "online", 5, 5, 5, "", 0, 0, 0, false, false⟩).2
      ≤ 1 :=
  ⟨fun p hp => by
      rcases List.mem_cons.mp hp with h1 | h1
      · exact ⟨"invalid auth token", by rw [h1], by decide⟩
      · rw [List.mem_singleton] at h1
        exact ⟨"invalid auth token", by rw [h1], by decide⟩,
   (auth_error_streak_at_most_one_email
      ⟨"online", "", 0, "online", 5, 5, 5, "", 0, 0, 0, false, false⟩
      [((10 : Int), FetchResult.fetchErr "invalid auth token"),
       ((20 : Int), FetchResult.fetchErr "invalid auth token")]
      (fun p hp => by
        rcases List.mem_cons.mp hp with h1 | h1
        · exact ⟨"invalid auth token", by rw [h1], by decide⟩
        · rw [List.mem_singleton] at h1
          exact ⟨"invalid auth token", by rw [h1], by decide⟩)).1⟩



/-! ### Persisted status record (C8)

The source persists the record with `json.dump([ts, status], f, indent=2)`
and reads it back with `json.load`.  `saveRecord` reproduces the exact byte
sequence `json.dump` emits for a two-element `[int, str]` list with
`indent=2` and the default `ensure_ascii=True` (ASCII printables literal,
short escapes for the common controls, `\uXXXX` for everything else,
surrogate pairs for astral code points, lowercase hex).  `loadRecord`
models `json.load` restricted to this record grammar, with Python's strict
string scanner (raw control characters rejected, both hex cases accepted,
surrogate pairs combined).  The single deviation: on a *lone* surrogate
escape Python would produce a string containing an unpaired surrogate,
which a Lean `String` cannot represent; `loadRecord` rejects such input,
which `saveRecord` never emits. -/

def digitChar (n : Nat) : Char := Char.ofNat (48 + n)

def natDigits (n : Nat) : List Char :=
  if h : n < 10 then [digitChar n]
  else natDigits (n / 10) ++ [digitChar (n % 10)]
termination_by n
decreasing_by exact Nat.div_lt_self (by omega) (by omega)

def intDigits (i : Int) : List Char :=
  if i < 0 then '-' :: natDigits i.natAbs else natDigits i.toNat

def hexDigitChar (n : Nat) : Char :=
  if n < 10 then Char.ofNat (48 + n) else Char.ofNat (87 + n)

def hex4 (n : Nat) : List Char :=
  [hexDigitChar (n / 4096 % 16), hexDigitChar (n / 256 % 16),
   hexDigitChar (n / 16 % 16), hexDigitChar (n % 16)]

def escapeChar (c : Char) : List Char :=
  if c = '"' then ['\\', '"']
  else if c = '\\' then ['\\', '\\']
  else if c = '\x08' then ['\\', 'b']
  else if c = '\x0c' then ['\\', 'f']
  else if c = '\n' then ['\\', 'n']
  else if c = '\r' then ['\\', 'r']
  else if c = '\t' then ['\\', 't']
  else if 0x20 ≤ c.toNat ∧ c.toNat ≤ 0x7e then [c]
  else if c.toNat < 0x10000 then '\\' :: 'u' :: hex4 c.toNat
  else
    '\\' :: 'u' :: (hex4 (0xd800 + (c.toNat - 0x10000) / 0x400) ++
      ('\\' :: 'u' :: hex4 (0xdc00 + (c.toNat - 0x10000) % 0x400)))

def escapeString (s : String) : List Char :=
  s.data.flatMap escapeChar

def saveRecord (ts : Int) (status : String) : List Char :=
  '[' :: '\n' :: ' ' :: ' ' ::
    (intDigits ts ++
      (',' :: '\n' :: ' ' :: ' ' :: '"' ::
        (escapeString status ++ ('"' :: '\n' :: [']']))))

def isWsChar (c : Char) : Bool :=
  c.toNat = 32 ∨ c.toNat = 9 ∨ c.toNat = 10 ∨ c.toNat = 13

def skipWs : List Char → List Char
  | [] => []
  | c :: rest => if isWsChar c then skipWs rest else c :: rest

def isDigitChar (c : Char) : Bool :=
  48 ≤ c.toNat ∧ c.toNat ≤ 57

def digitVal (c : Char) : Nat := c.toNat - 48

def digitsVal (ds : List Char) : Nat :=
  ds.foldl (fun a c => a * 10 + digitVal c) 0

def parseInt : List Char → Option (Int × List Char)
  | [] => none
  | c :: rest =>
      if c = '-' then
        if (rest.takeWhile isDigitChar).isEmpty then none
        else some (-(digitsVal (rest.takeWhile isDigitChar) : Int),
          rest.dropWhile isDigitChar)
      else
        if ((c :: rest).takeWhile isDigitChar).isEmpty then none
        else some ((digitsVal ((c :: rest).takeWhile isDigitChar) : Int),
          (c :: rest).dropWhile isDigitChar)

def hexVal (c : Char) : Option Nat :=
  if 48 ≤ c.toNat ∧ c.toNat ≤ 57 then some (c.toNat - 48)
  else if 97 ≤ c.toNat ∧ c.toNat ≤ 102 then some (c.toNat - 87)
  else if 65 ≤ c.toNat ∧ c.toNat ≤ 70 then some (c.toNat - 55)
  else none

def simpleEscape (e : Char) : Option Char :=
  if e = '"' then some '"'
  else if e = '\\' then some '\\'
  else if e = '/' then some '/'
  else if e = 'b' then some '\x08'
  else if e = 'f' then some '\x0c'
  else if e = 'n' then some '\n'
  else if e = 'r' then some '\r'
  else if e = 't' then some '\t'
  else none

def decodeU (l : List Char) : Option (Nat × List Char) :=
  match l with
  | h1 :: h2 :: h3 :: h4 :: rest =>
    match hexVal h1, hexVal h2, hexVal h3, hexVal h4 with
    | some a, some b, some c, some d =>
        some ((((a * 16 + b) * 16 + c) * 16 + d), rest)
    | _, _, _, _ => none
  | _ => none

theorem decodeU_length {l : List Char} {code : Nat} {r : List Char}
    (h : decodeU l = some (code, r)) : r.length + 4 = l.length := by
  match l with
  | h1 :: h2 :: h3 :: h4 :: rest =>
      rw [decodeU] at h
      rcases hv1 : hexVal h1 with _ | a <;> rw [hv1] at h <;>
      rcases hv2 : hexVal h2 with _ | b <;> rw [hv2] at h <;>
      rcases hv3 : hexVal h3 with _ | c <;> rw [hv3] at h <;>
      rcases hv4 : hexVal h4 with _ | d <;> rw [hv4] at h <;>
        simp_all
  | [] => simp [decodeU] at h
  | [h1] => simp [decodeU] at h
  | [h1, h2] => simp [decodeU] at h
  | [h1, h2, h3] => simp [decodeU] at h

def decodeUEscape (l : List Char) : Option (Char × List Char) :=
  match decodeU l with
  | none => none
  | some (code, rest) =>
    if 0xd800 ≤ code ∧ code ≤ 0xdbff then
      match rest with
      | b1 :: u1 :: rest2 =>
        if b1 = '\\' ∧ u1 = 'u' then
          match decodeU rest2 with
          | some (code2, rest3) =>
            if 0xdc00 ≤ code2 ∧ code2 ≤ 0xdfff then
              some (Char.ofNat
                (0x10000 + (code - 0xd800) * 0x400 + (code2 - 0xdc00)), rest3)
            else none
          | none => none
        else none
      | _ => none
    else if 0xdc00 ≤ code ∧ code ≤ 0xdfff then none
    else some (Char.ofNat code, rest)

theorem decodeUEscape_length {l : List Char} {c : Char} {r : List Char}
    (h : decodeUEscape l = some (c, r)) : r.length + 4 ≤ l.length := by
  rcases hd : decodeU l with _ | ⟨code, rest⟩
  · unfold decodeUEscape at h
    rw [hd] at h
    simp at h
  · unfold decodeUEscape at h
    rw [hd] at h
    dsimp only at h
    have L1 := decodeU_length hd
    by_cases hc1 : 0xd800 ≤ code ∧ code ≤ 0xdbff
    · rw [if_pos hc1] at h
      rcases rest with _ | ⟨b1, rest'⟩
      · simp at h
      rcases rest' with _ | ⟨u1, rest2⟩
      · simp at h
      dsimp only at h
      by_cases hb : b1 = '\\' ∧ u1 = 'u'
      · rw [if_pos hb] at h
        rcases hd2 : decodeU rest2 with _ | ⟨code2, rest3⟩ <;>
          rw [hd2] at h <;> dsimp only at h
        · simp at h
        · have L2 := decodeU_length hd2
          by_cases hc2 : 0xdc00 ≤ code2 ∧ code2 ≤ 0xdfff
          · rw [if_pos hc2] at h
            simp only [Option.some.injEq, Prod.mk.injEq] at h
            obtain ⟨-, hr⟩ := h
            subst hr
            simp only [List.length_cons] at L1
            omega
          · rw [if_neg hc2] at h
            simp at h
      · rw [if_neg hb] at h
        simp at h
    · rw [if_neg hc1] at h
      by_cases hc2 : 0xdc00 ≤ code ∧ code ≤ 0xdfff
      · rw [if_pos hc2] at h
        simp at h
      · rw [if_neg hc2] at h
        simp only [Option.some.injEq, Prod.mk.injEq] at h
        obtain ⟨-, hr⟩ := h
        subst hr
        omega

def parseJStr : List Char → Option (List Char × List Char)
  | [] => none
  | c :: rest =>
    if c = '"' then some ([], rest)
    else if c = '\\' then
      match rest with
      | [] => none
      | e :: rest2 =>
        if e = 'u' then
          match hdec : decodeUEscape rest2 with
          | some (uc, rest3) =>
            match parseJStr rest3 with
            | some (cs, rem) => some (uc :: cs, rem)
            | none => none
          | none => none
        else
          match simpleEscape e with
          | some ec =>
            match parseJStr rest2 with
            | some (cs, rem) => some (ec :: cs, rem)
            | none => none
          | none => none
    else if c.toNat < 0x20 then none
    else
      match parseJStr rest with
      | some (cs, rem) => some (c :: cs, rem)
      | none => none
termination_by l => l.length
decreasing_by
  · have := decodeUEscape_length hdec
    simp_all
    omega
  · simp_all
    omega
  · simp_all

def expectChar (c : Char) (l : List Char) : Option (List Char) :=
  match l with
  | x :: rest => if x = c then some rest else none
  | [] => none

def loadRecord (l : List Char) : Option (Int × String) :=
  match expectChar '[' (skipWs l) with
  | none => none
  | some r1 =>
    match parseInt (skipWs r1) with
    | none => none
    | some (ts, r2) =>
      match expectChar ',' (skipWs r2) with
      | none => none
      | some r3 =>
        match expectChar '"' (skipWs r3) with
        | none => none
        | some r4 =>
          match parseJStr r4 with
          | none => none
          | some (cs, r5) =>
            match expectChar ']' (skipWs r5) with
            | none => none
            | some r6 =>
                if (skipWs r6).isEmpty then some (ts, ⟨cs⟩) else none

/-! Digit lemmas -/

theorem digitChar_spec (d : Nat) (h : d < 10) :
    isDigitChar (digitChar d) = true ∧ digitVal (digitChar d) = d ∧
    digitChar d ≠ '-' ∧ isWsChar (digitChar d) = false := by
  interval_cases d <;> exact ⟨rfl, rfl, by decide, rfl⟩

theorem natDigits_ne_nil (n : Nat) : natDigits n ≠ [] := by
  rw [natDigits]
  split_ifs <;> simp

theorem natDigits_digits (n : Nat) :
    ∀ c ∈ natDigits n, isDigitChar c = true := by
  induction n using Nat.strong_induction_on with
  | _ n ih =>
    rw [natDigits]
    split_ifs with h
    · intro c hc
      rw [List.mem_singleton] at hc
      subst hc
      exact (digitChar_spec n h).1
    · intro c hc
      rw [List.mem_append] at hc
      rcases hc with hc | hc
      · exact ih (n / 10) (Nat.div_lt_self (by omega) (by omega)) c hc
      · rw [List.mem_singleton] at hc
        subst hc
        exact (digitChar_spec (n % 10) (Nat.mod_lt _ (by omega))).1

theorem digitsVal_append (ds : List Char) (c : Char) :
    digitsVal (ds ++ [c]) = digitsVal ds * 10 + digitVal c := by
  simp [digitsVal, List.foldl_append]

theorem digitsVal_natDigits (n : Nat) : digitsVal (natDigits n) = n := by
  induction n using Nat.strong_induction_on with
  | _ n ih =>
    rw [natDigits]
    split_ifs with h
    · simp [digitsVal, (digitChar_spec n h).2.1]
    · rw [digitsVal_append, ih (n / 10) (Nat.div_lt_self (by omega) (by omega)),
        (digitChar_spec (n % 10) (Nat.mod_lt _ (by omega))).2.1]
      omega

/-! parseInt lemmas -/

theorem takeWhile_append_all (p : Char → Bool) (l r : List Char)
    (h : ∀ c ∈ l, p c = true) : (l ++ r).takeWhile p = l ++ r.takeWhile p := by
  induction l with
  | nil => simp
  | cons a t ih =>
      rw [List.cons_append, List.takeWhile_cons, h a (by simp),
        ih (fun c hc => h c (by simp [hc]))]
      simp

theorem dropWhile_append_all (p : Char → Bool) (l r : List Char)
    (h : ∀ c ∈ l, p c = true) : (l ++ r).dropWhile p = r.dropWhile p := by
  induction l with
  | nil => simp
  | cons a t ih =>
      rw [List.cons_append, List.dropWhile_cons, h a (by simp)]
      exact ih (fun c hc => h c (by simp [hc]))

theorem parseInt_natDigits_append (n : Nat) (c : Char) (r : List Char)
    (hc : isDigitChar c = false) :
    parseInt (natDigits n ++ c :: r) = some ((n : Int), c :: r) := by
  obtain ⟨d, ds, hds⟩ : ∃ d ds, natDigits n = d :: ds := by
    cases hnd : natDigits n with
    | nil => exact absurd hnd (natDigits_ne_nil n)
    | cons d ds => exact ⟨d, ds, rfl⟩
  have hdall := natDigits_digits n
  rw [hds] at hdall
  have htake : ((d :: ds) ++ c :: r).takeWhile isDigitChar = d :: ds := by
    rw [takeWhile_append_all _ _ _ hdall, List.takeWhile_cons, hc]
    simp
  have hdrop : ((d :: ds) ++ c :: r).dropWhile isDigitChar = c :: r := by
    rw [dropWhile_append_all _ _ _ hdall, List.dropWhile_cons, hc]
    simp
  have hdm : d ≠ '-' := by
    intro he
    subst he
    have := hdall '-' (by simp)
    simp [isDigitChar] at this
  rw [hds, List.cons_append, parseInt, if_neg hdm]
  rw [List.cons_append] at htake hdrop
  rw [htake, hdrop]
  have : digitsVal (d :: ds) = n := by rw [← hds, digitsVal_natDigits]
  simp [this]

theorem parseInt_intDigits (i : Int) (c : Char) (r : List Char)
    (hc : isDigitChar c = false) :
    parseInt (intDigits i ++ c :: r) = some (i, c :: r) := by
  by_cases hi : i < 0
  · rw [intDigits, if_pos hi, List.cons_append, parseInt, if_pos rfl]
    have hdall := natDigits_digits i.natAbs
    have htake : (natDigits i.natAbs ++ c :: r).takeWhile isDigitChar
        = natDigits i.natAbs := by
      rw [takeWhile_append_all _ _ _ hdall, List.takeWhile_cons, hc]
      simp
    have hdrop : (natDigits i.natAbs ++ c :: r).dropWhile isDigitChar = c :: r := by
      rw [dropWhile_append_all _ _ _ hdall, List.dropWhile_cons, hc]
      simp
    rw [htake, hdrop, digitsVal_natDigits]
    have hne : (natDigits i.natAbs).isEmpty = false := by
      cases hnd : natDigits i.natAbs with
      | nil => exact absurd hnd (natDigits_ne_nil _)
      | cons d ds => rfl
    rw [if_neg (by simp [hne])]
    have : -((i.natAbs : Nat) : Int) = i := by omega
    rw [this]
  · rw [intDigits, if_neg hi, parseInt_natDigits_append _ _ _ hc]
    have : ((i.toNat : Nat) : Int) = i := by omega
    rw [this]

/-! skipWs lemmas -/

theorem skipWs_cons_not (c : Char) (l : List Char) (h : isWsChar c = false) :
    skipWs (c :: l) = c :: l := by
  rw [skipWs, h]
  simp

theorem skipWs_intDigits (i : Int) (l : List Char) :
    skipWs (intDigits i ++ l) = intDigits i ++ l := by
  by_cases hi : i < 0
  · rw [intDigits, if_pos hi, List.cons_append]
    exact skipWs_cons_not _ _ (by decide)
  · rw [intDigits, if_neg hi]
    obtain ⟨d, ds, hds⟩ : ∃ d ds, natDigits i.toNat = d :: ds := by
      cases hnd : natDigits i.toNat with
      | nil => exact absurd hnd (natDigits_ne_nil _)
      | cons d ds => exact ⟨d, ds, rfl⟩
    rw [hds, List.cons_append]
    refine skipWs_cons_not _ _ ?_
    have hd := natDigits_digits i.toNat d (by rw [hds]; simp)
    simp only [isDigitChar, decide_eq_true_eq] at hd
    simp only [isWsChar, decide_eq_false_iff_not]
    omega

/-! hex lemmas -/

theorem hexVal_hexDigitChar (d : Nat) (h : d < 16) :
    hexVal (hexDigitChar d) = some d := by
  interval_cases d <;> rfl

theorem char_valid_ranges (c : Char) :
    c.toNat < 0xd800 ∨ (0xdfff < c.toNat ∧ c.toNat < 0x110000) := by
  have h := c.valid
  unfold UInt32.isValidChar at h
  exact h

/-! decode-of-encode lemmas -/

theorem decodeU_hex4 (code : Nat) (h : code < 0x10000) (l : List Char) :
    decodeU (hex4 code ++ l) = some (code, l) := by
  have e : hex4 code ++ l
      = hexDigitChar (code / 4096 % 16) :: hexDigitChar (code / 256 % 16)
        :: hexDigitChar (code / 16 % 16) :: hexDigitChar (code % 16) :: l := rfl
  rw [e, decodeU,
    hexVal_hexDigitChar _ (by omega), hexVal_hexDigitChar _ (by omega),
    hexVal_hexDigitChar _ (by omega), hexVal_hexDigitChar _ (by omega)]
  dsimp only
  have harith : (((code / 4096 % 16) * 16 + code / 256 % 16) * 16
      + code / 16 % 16) * 16 + code % 16 = code := by omega
  rw [harith]

theorem decodeUEscape_basic (code : Nat) (h : code < 0x10000)
    (hs : ¬ (0xd800 ≤ code ∧ code ≤ 0xdfff)) (l : List Char) :
    decodeUEscape (hex4 code ++ l) = some (Char.ofNat code, l) := by
  unfold decodeUEscape
  rw [decodeU_hex4 code h]
  dsimp only
  rw [if_neg (by omega), if_neg (by omega)]

theorem decodeUEscape_surrogate (n : Nat) (h : n < 0x100000) (l : List Char) :
    decodeUEscape (hex4 (0xd800 + n / 0x400) ++
        ('\\' :: 'u' :: (hex4 (0xdc00 + n % 0x400) ++ l)))
      = some (Char.ofNat (0x10000 + n), l) := by
  unfold decodeUEscape
  rw [decodeU_hex4 _ (by omega)]
  dsimp only
  rw [if_pos (by omega)]
  rw [if_pos ⟨rfl, rfl⟩, decodeU_hex4 _ (by omega)]
  dsimp only
  rw [if_pos (by omega)]
  have harith : 0x10000 + (0xd800 + n / 0x400 - 0xd800) * 0x400 +
      (0xdc00 + n % 0x400 - 0xdc00) = 0x10000 + n := by omega
  rw [harith]

/-! parseJStr branch lemmas -/

theorem parseJStr_quote (l : List Char) : parseJStr ('"' :: l) = some ([], l) := by
  rw [parseJStr.eq_def]
  dsimp only
  rw [if_pos rfl]

theorem parseJStr_lit (c : Char) (l : List Char)
    (h1 : c ≠ '"') (h2 : c ≠ '\\') (h3 : ¬ c.toNat < 0x20) :
    parseJStr (c :: l) = (parseJStr l).map (fun p => (c :: p.1, p.2)) := by
  rw [parseJStr.eq_def]
  dsimp only
  rw [if_neg h1, if_neg h2, if_neg h3]
  cases hp : parseJStr l with
  | none => rfl
  | some p => cases p; rfl

theorem parseJStr_simple_escape (e ec : Char) (l : List Char)
    (he : e ≠ 'u') (h : simpleEscape e = some ec) :
    parseJStr ('\\' :: e :: l) = (parseJStr l).map (fun p => (ec :: p.1, p.2)) := by
  rw [parseJStr.eq_def]
  dsimp only
  rw [if_neg (by decide : ¬ ('\\' : Char) = '"'), if_pos rfl, if_neg he, h]
  cases hp : parseJStr l with
  | none => rfl
  | some p => cases p; rfl

theorem parseJStr_u_escape (rest2 : List Char) (uc : Char) (rest3 : List Char)
    (hdec : decodeUEscape rest2 = some (uc, rest3)) :
    parseJStr ('\\' :: 'u' :: rest2)
      = (parseJStr rest3).map (fun p => (uc :: p.1, p.2)) := by
  rw [parseJStr.eq_def]
  dsimp only
  rw [if_neg (by decide : ¬ ('\\' : Char) = '"'), if_pos rfl, if_pos rfl]
  split
  · rename_i uc2 rest4 heq
    rw [hdec] at heq
    simp only [Option.some.injEq, Prod.mk.injEq] at heq
    obtain ⟨h1, h2⟩ := heq
    subst h1
    subst h2
    cases hp : parseJStr rest3 with
    | none => rfl
    | some p => cases p; rfl
  · rename_i heq
    rw [hdec] at heq
    exact absurd heq (by simp)

/-! per-character escape round trip -/

theorem parseJStr_escapeChar (c : Char) (l : List Char) :
    parseJStr (escapeChar c ++ l)
      = (parseJStr l).map (fun p => (c :: p.1, p.2)) := by
  by_cases h1 : c = '"'
  · subst h1
    exact parseJStr_simple_escape '"' '"' l (by decide) rfl
  by_cases h2 : c = '\\'
  · subst h2
    exact parseJStr_simple_escape '\\' '\\' l (by decide) rfl
  by_cases h3 : c = '\x08'
  · subst h3
    exact parseJStr_simple_escape 'b' '\x08' l (by decide) rfl
  by_cases h4 : c = '\x0c'
  · subst h4
    exact parseJStr_simple_escape 'f' '\x0c' l (by decide) rfl
  by_cases h5 : c = '\n'
  · subst h5
    exact parseJStr_simple_escape 'n' '\n' l (by decide) rfl
  by_cases h6 : c = '\r'
  · subst h6
    exact parseJStr_simple_escape 'r' '\r' l (by decide) rfl
  by_cases h7 : c = '\t'
  · subst h7
    exact parseJStr_simple_escape 't' '\t' l (by decide) rfl
  by_cases h8 : 0x20 ≤ c.toNat ∧ c.toNat ≤ 0x7e
  · have he : escapeChar c = [c] := by
      unfold escapeChar
      rw [if_neg h1, if_neg h2, if_neg h3, if_neg h4, if_neg h5, if_neg h6,
        if_neg h7, if_pos h8]
    rw [he]
    exact parseJStr_lit c l h1 h2 (by omega)
  by_cases h9 : c.toNat < 0x10000
  · have hv := char_valid_ranges c
    have he : escapeChar c = '\\' :: 'u' :: hex4 c.toNat := by
      unfold escapeChar
      rw [if_neg h1, if_neg h2, if_neg h3, if_neg h4, if_neg h5, if_neg h6,
        if_neg h7, if_neg h8, if_pos h9]
    rw [he]
    have hdec := decodeUEscape_basic c.toNat h9 (by omega) l
    have hsh : ('\\' :: 'u' :: hex4 c.toNat) ++ l
        = '\\' :: 'u' :: (hex4 c.toNat ++ l) := rfl
    rw [hsh, parseJStr_u_escape _ _ _ hdec, Char.ofNat_toNat]
  · have hv := char_valid_ranges c
    have he : escapeChar c
        = '\\' :: 'u' :: (hex4 (0xd800 + (c.toNat - 0x10000) / 0x400) ++
            ('\\' :: 'u' :: hex4 (0xdc00 + (c.toNat - 0x10000) % 0x400))) := by
      unfold escapeChar
      rw [if_neg h1, if_neg h2, if_neg h3, if_neg h4, if_neg h5, if_neg h6,
        if_neg h7, if_neg h8, if_neg h9]
    rw [he]
    have hsh : ('\\' :: 'u' :: (hex4 (0xd800 + (c.toNat - 0x10000) / 0x400) ++
          ('\\' :: 'u' :: hex4 (0xdc00 + (c.toNat - 0x10000) % 0x400)))) ++ l
        = '\\' :: 'u' :: (hex4 (0xd800 + (c.toNat - 0x10000) / 0x400) ++
            ('\\' :: 'u' :: (hex4 (0xdc00 + (c.toNat - 0x10000) % 0x400) ++ l))) := by
      simp [List.cons_append, List.append_assoc]
    rw [hsh]
    have hdec := decodeUEscape_surrogate (c.toNat - 0x10000) (by omega) l
    rw [parseJStr_u_escape _ _ _ hdec]
    have harith : 0x10000 + (c.toNat - 0x10000) = c.toNat := by omega
    rw [harith, Char.ofNat_toNat]

theorem parseJStr_escapeList (cs : List Char) (l : List Char) :
    parseJStr (cs.flatMap escapeChar ++ ('"' :: l)) = some (cs, l) := by
  induction cs with
  | nil => simpa using parseJStr_quote l
  | cons c cs ih =>
      have hsh : (c :: cs).flatMap escapeChar ++ ('"' :: l)
          = escapeChar c ++ (cs.flatMap escapeChar ++ ('"' :: l)) := by
        simp [List.append_assoc]
      rw [hsh, parseJStr_escapeChar, ih]
      rfl

theorem parseJStr_escapeString (s : String) (l : List Char) :
    parseJStr (escapeString s ++ ('"' :: l)) = some (s.data, l) :=
  parseJStr_escapeList s.data l

theorem skipWs_cons_ws (c : Char) (l : List Char) (h : isWsChar c = true) :
    skipWs (c :: l) = skipWs l := by
  rw [skipWs, h]
  simp

theorem expectChar_cons_self (c : Char) (l : List Char) :
    expectChar c (c :: l) = some l := by
  unfold expectChar
  dsimp only
  rw [if_pos rfl]

theorem loadRecord_saveRecord (ts : Int) (status : String) :
    loadRecord (saveRecord ts status) = some (ts, status) := by
  unfold loadRecord saveRecord
  rw [skipWs_cons_not _ _ (by decide), expectChar_cons_self]
  dsimp only
  rw [skipWs_cons_ws _ _ (by decide), skipWs_cons_ws _ _ (by decide),
    skipWs_cons_ws _ _ (by decide), skipWs_intDigits,
    parseInt_intDigits _ _ _ (by decide)]
  dsimp only
  rw [skipWs_cons_not _ _ (by decide), expectChar_cons_self]
  dsimp only
  rw [skipWs_cons_ws _ _ (by decide), skipWs_cons_ws _ _ (by decide),
    skipWs_cons_ws _ _ (by decide), skipWs_cons_not _ _ (by decide),
    expectChar_cons_self]
  dsimp only
  rw [parseJStr_escapeString]
  dsimp only
  rw [skipWs_cons_ws _ _ (by decide), skipWs_cons_not _ _ (by decide),
    expectChar_cons_self]
  rfl

/-- C8: for every persisted status record, loading the JSON file content
written by the save path and immediately saving the loaded pair back
produces byte-identical content — `loadRecord` inverts `saveRecord` and
the serialization is a deterministic function of the two values. -/
theorem save_load_save_byte_identical (ts : Int) (status : String) :
    ∃ p : Int × String, loadRecord (saveRecord ts status) = some p ∧
      saveRecord p.1 p.2 = saveRecord ts status :=
  ⟨(ts, status), loadRecord_saveRecord ts status, rfl⟩

end XboxMonitor
